import Mathlib

/-!
Shallow embedding of the real-time check-in channel of the AV-Gym-System
repository (`checkins/consumers.py`, models in `checkins/models.py` and
`members/models.py`), together with theorems settling the claims about it.

Modelling conventions:
* Timestamps are `Nat` seconds (UTC).  `timezone.now()` becomes an explicit
  `now` argument; `today_start` (midnight of the current day) is an explicit
  `todayStart` argument; a day is 86400 seconds.
* The database is a `Store` value threaded through the handlers.  `CheckIn.id`
  is an opaque unique token (UUID in the source), modelled as a `Nat` drawn
  from `Store.nextId`; `Member.id` (a UUID string) is modelled as `String`.
* `Member` has no `membership_type` field in `members/models.py`, so the
  source's `getattr(member, 'membership_type', '')` always yields `""`; the
  embedding writes that constant directly.
* Messages sent over the socket are values of the `Message` inductive; each
  handler returns the list of messages sent to the requesting connection
  (`sent`) and the list of group broadcasts (`broadcast`), in send order.
* Python float arithmetic on stay durations is idealised as exact `ℚ`
  arithmetic; Python's `round` (banker's rounding) is `roundHalfEven`.
* An exception escaping a handler is an `Except.error` result.
-/

namespace AVGym

/-- A row of `members.models.Member`, restricted to the fields the check-in
channel reads (`id`, `full_name`). -/
structure Member where
  id : String
  full_name : String
deriving DecidableEq, Repr

/-- A row of `checkins.models.CheckIn`: member reference, server-assigned
check-in time, nullable check-out time, optional location and notes. -/
structure CheckIn where
  id : Nat
  memberId : String
  check_in_time : Nat
  check_out_time : Option Nat
  location : Option String
  notes : Option String
deriving DecidableEq, Repr

/-- The record store backing the channel: the member table, the check-in
table, and the generator for fresh record ids. -/
structure Store where
  members : List Member
  checkins : List CheckIn
  nextId : Nat
deriving DecidableEq, Repr

/-- The `StatsSnapshot` dictionary returned by `get_check_in_stats`. -/
structure Stats where
  currentlyIn : Nat
  todayTotal : Nat
  averageStayMinutes : Int
deriving DecidableEq, Repr

/-- The `check_in` dictionary built by `process_check_in` (and echoed in
`check_in_success` / `member_checked_in` payloads). -/
structure CheckInInfo where
  id : Nat
  memberId : String
  memberFullName : String
  memberMembershipType : String
  check_in_time : Nat
  location : Option String
deriving DecidableEq, Repr

/-- The `check_out` dictionary built by `process_check_out`. -/
structure CheckOutInfo where
  id : Nat
  memberId : String
  memberFullName : String
  memberMembershipType : String
  check_in_time : Nat
  check_out_time : Nat
  location : Option String
deriving DecidableEq, Repr

/-- The `member_activity` payload broadcast after a successful mutation; the
`duration_minutes` field is present only on check-outs. -/
structure ActivityInfo where
  activity : String
  memberId : String
  memberFullName : String
  memberMembershipType : String
  timestamp : Nat
  location : Option String
  duration_minutes : Option Int
deriving DecidableEq, Repr

/-- Outbound wire messages of the consumer, one constructor per `type` tag. -/
inductive Message where
  | initial_stats (payload : Stats)
  | heartbeat_ack (timestamp : Nat)
  | error (message : String)
  | check_in_success (payload : CheckInInfo)
  | check_in_error (err : String)
  | check_out_success (payload : CheckOutInfo)
  | check_out_error (err : String)
  | member_checked_in (payload : CheckInInfo)
  | member_checked_out (payload : CheckOutInfo)
  | stats_update (payload : Stats)
  | activity_notification (payload : ActivityInfo)
deriving DecidableEq, Repr

/-- Python's `round` on an exact rational: round half to even. -/
def roundHalfEven (q : ℚ) : ℤ :=
  if q - ⌊q⌋ < 1/2 then ⌊q⌋
  else if 1/2 < q - ⌊q⌋ then ⌊q⌋ + 1
  else if ⌊q⌋ % 2 = 0 then ⌊q⌋ else ⌊q⌋ + 1

/-- Stay duration of a record in minutes, `(check_out_time − check_in_time)
.total_seconds() / 60` as an exact rational (meaningful when the record is
completed). -/
def stayMinutes (r : CheckIn) : ℚ :=
  (((r.check_out_time.getD 0 : ℤ) - (r.check_in_time : ℤ) : ℤ) : ℚ) / 60

/-- The queryset `CheckIn.objects.filter(check_in_time__gte=today_start,
check_out_time__isnull=False)` used by the stats aggregator. -/
def completedToday (st : Store) (todayStart : Nat) : List CheckIn :=
  st.checkins.filter (fun r => decide (todayStart ≤ r.check_in_time) && r.check_out_time.isSome)

/-- `CheckInConsumer.get_check_in_stats`: currently-in count, today's total,
and the rounded mean stay over today's completed records (0 when there are
none). -/
def get_check_in_stats (st : Store) (todayStart : Nat) : Stats :=
  let currently_in := (st.checkins.filter (fun r => r.check_out_time.isNone)).length
  let today_total := (st.checkins.filter (fun r => decide (todayStart ≤ r.check_in_time))).length
  let completed := completedToday st todayStart
  let total_stay_minutes : ℚ := (completed.map stayMinutes).sum
  let average_stay_minutes : ℤ :=
    if 0 < completed.length then roundHalfEven (total_stay_minutes / (completed.length : ℚ))
    else 0
  ⟨currently_in, today_total, average_stay_minutes⟩

/-- `Member.objects.get(id=member_id)` with `DoesNotExist` as `none`; a `None`
member id also raises `DoesNotExist` (no row has a null primary key). -/
def findMember (st : Store) (member_id : Option String) : Option Member :=
  member_id.bind (fun mid => st.members.find? (fun m => m.id == mid))

/-- Full name of the member a record references (`check_in.member.full_name`;
the foreign key always resolves in the database, `""` as a fallback here). -/
def memberName (st : Store) (mid : String) : String :=
  match st.members.find? (fun m => m.id == mid) with
  | some m => m.full_name
  | none => ""

/-- `CheckInConsumer.process_check_in`: look the member up, create a new open
record with the server timestamp, and return the `check_in` payload; a missing
member yields the error result, with the store unchanged. -/
def process_check_in (st : Store) (now : Nat) (member_id : Option String)
    (location notes : Option String) : Store × Except String CheckInInfo :=
  match findMember st member_id with
  | none => (st, Except.error "Member not found")
  | some m =>
      let ci : CheckIn := ⟨st.nextId, m.id, now, none, location, notes⟩
      (⟨st.members, st.checkins ++ [ci], st.nextId + 1⟩,
        Except.ok ⟨ci.id, m.id, m.full_name, "", now, location⟩)

/-- Python truthiness-guarded `or` of `data.get('memberId') or
data.get('member_id')`: an absent or empty first value falls through. -/
def pyOrStr (a b : Option String) : Option String :=
  match a with
  | some s => if s = "" then b else some s
  | none => b

/-- The fields of an inbound `payload` object the handlers read; absent JSON
keys are `none`. -/
structure PayloadData where
  memberId : Option String
  member_id : Option String
  checkInId : Option Nat
  location : Option String
  notes : Option String
deriving DecidableEq, Repr

/-- Result of one message handler: the updated store, the messages sent to
the requesting connection, and the group broadcasts, each in send order. -/
structure HandlerResult where
  store : Store
  sent : List Message
  broadcast : List Message
deriving DecidableEq, Repr

/-- `CheckInConsumer.handle_check_in`: run `process_check_in`; on success send
`check_in_success` to the sender and broadcast `member_checked_in`, a fresh
`stats_update` and an `activity_notification`; on failure send
`check_in_error` to the sender only. -/
def handle_check_in (st : Store) (now todayStart : Nat) (data : PayloadData) :
    HandlerResult :=
  match process_check_in st now (pyOrStr data.memberId data.member_id)
      data.location data.notes with
  | (st', Except.ok info) =>
      let stats := get_check_in_stats st' todayStart
      let activity : ActivityInfo :=
        ⟨"check_in", info.memberId, info.memberFullName, info.memberMembershipType,
          info.check_in_time, info.location, none⟩
      ⟨st', [Message.check_in_success info],
        [Message.member_checked_in info, Message.stats_update stats,
          Message.activity_notification activity]⟩
  | (st', Except.error e) => ⟨st', [Message.check_in_error e], []⟩

/-- The row update performed by `process_check_out` on the fetched record:
`check_out_time = timezone.now()`, and `notes` is overwritten by the supplied
notes only when they are truthy (non-`None`, non-empty). -/
def closeRecord (r : CheckIn) (now : Nat) (notes : Option String) : CheckIn :=
  { r with
    check_out_time := some now,
    notes := match notes with
             | some s => if s = "" then r.notes else some s
             | none => r.notes }

/-- `CheckInConsumer.process_check_out`: fetch the open record by id
(`CheckIn.objects.get(id=check_in_id, check_out_time__isnull=True)`; record
ids are unique primary keys), set its check-out time, overwrite its notes when
supplied, save, and return the `check_out` payload; `DoesNotExist` (wrong id,
null id, or already-closed record) yields the error result with the store
unchanged. -/
def process_check_out (st : Store) (now : Nat) (check_in_id : Option Nat)
    (notes : Option String) : Store × Except String CheckOutInfo :=
  match check_in_id.bind
      (fun cid => st.checkins.find? (fun r => r.id == cid && r.check_out_time.isNone)) with
  | none => (st, Except.error "Check-in not found or already checked out")
  | some r =>
      let r' := closeRecord r now notes
      (⟨st.members, st.checkins.map (fun x => if x.id == r.id then r' else x), st.nextId⟩,
        Except.ok ⟨r.id, r.memberId, memberName st r.memberId, "",
          r.check_in_time, now, r.location⟩)

/-- `CheckInConsumer.handle_check_out`: run `process_check_out`; on success
send `check_out_success` to the sender and broadcast `member_checked_out`, a
fresh `stats_update` and an `activity_notification` whose `duration_minutes`
is the truncated minute difference of the two timestamps; on failure send
`check_out_error` to the sender only. -/
def handle_check_out (st : Store) (now todayStart : Nat) (data : PayloadData) :
    HandlerResult :=
  match process_check_out st now data.checkInId data.notes with
  | (st', Except.ok info) =>
      let stats := get_check_in_stats st' todayStart
      let duration : Int :=
        ((info.check_out_time : ℤ) - (info.check_in_time : ℤ)).tdiv 60
      let activity : ActivityInfo :=
        ⟨"check_out", info.memberId, info.memberFullName, info.memberMembershipType,
          info.check_out_time, info.location, some duration⟩
      ⟨st', [Message.check_out_success info],
        [Message.member_checked_out info, Message.stats_update stats,
          Message.activity_notification activity]⟩
  | (st', Except.error e) => ⟨st', [Message.check_out_error e], []⟩

/-- The threaded accumulator of `handle_batch_messages`:
(store, sent so far, broadcast so far). -/
abbrev BatchAcc := Store × List Message × List Message

/-- Sequential dispatch of one batch entry's payload list through a handler,
in list order, accumulating sends and broadcasts. -/
def foldHandler (h : Store → PayloadData → HandlerResult) (acc : BatchAcc)
    (ps : List PayloadData) : BatchAcc :=
  ps.foldl (fun a p =>
    let r := h a.1 p
    (r.store, a.2.1 ++ r.sent, a.2.2 ++ r.broadcast)) acc

/-- `CheckInConsumer.handle_batch_messages`: iterate the `batches` mapping in
insertion order; `check_in` and `check_out` lists are dispatched through the
ordinary handlers payload by payload; `check_in_update`, `member_update` and
unknown types only log. -/
def handle_batch_messages (st : Store) (now todayStart : Nat)
    (batches : List (String × List PayloadData)) : BatchAcc :=
  batches.foldl (fun a entry =>
    if entry.1 = "check_in" then
      foldHandler (fun s p => handle_check_in s now todayStart p) a entry.2
    else if entry.1 = "check_out" then
      foldHandler (fun s p => handle_check_out s now todayStart p) a entry.2
    else a) (st, [], [])

/-- The identity attached to the connection scope by the middleware. -/
inductive UserScope where
  | anonymous
  | authenticated (id : String) (username : String)
deriving DecidableEq, Repr

/-- The fields of a parsed inbound JSON object the dispatcher reads:
`data.get('type')`, `data.get('payload', {})`, `data.get('batches', {})`. -/
structure InboundData where
  type : Option String
  payload : Option PayloadData
  batches : Option (List (String × List PayloadData))
deriving DecidableEq, Repr

/-- Outcome of `CheckInConsumer.receive` on one frame: updated store, messages
sent to the sender, broadcasts, and whether the consumer closed the
connection. -/
structure ReceiveResult where
  store : Store
  sent : List Message
  broadcast : List Message
  closed : Bool
deriving DecidableEq, Repr

/-- An inbound `payload` object none of whose known keys are present
(`data.get('payload', {})` when the key is absent). -/
def emptyPayload : PayloadData := ⟨none, none, none, none, none⟩

/-- `CheckInConsumer.receive`.  The argument `parsed` is the result of
`json.loads(text_data)` (`none` for a frame that is not valid JSON).  The
debug print on line 85 of `consumers.py` evaluates `json.loads(text_data)`
BEFORE the `try` block is entered, so an invalid frame raises
`json.JSONDecodeError` out of `receive` (`Except.error ()`): the
`except json.JSONDecodeError` branch that would send
`\x7btype: error, message: "Invalid JSON format"\x7d` is unreachable.
Valid frames dispatch on the `type` field: `heartbeat` is acknowledged,
`batch` runs `handle_batch_messages`, `authenticate` is a no-op, an anonymous
user gets `error: Authentication required` and the connection is closed,
`check_in`/`check_out` run their handlers, and unknown types are ignored. -/
def receive (user : UserScope) (st : Store) (now todayStart : Nat)
    (parsed : Option InboundData) : Except Unit ReceiveResult :=
  match parsed with
  | none => Except.error ()
  | some data =>
      let event_type := data.type
      if event_type = some "heartbeat" then
        Except.ok ⟨st, [Message.heartbeat_ack now], [], false⟩
      else if event_type = some "batch" then
        let r := handle_batch_messages st now todayStart (data.batches.getD [])
        Except.ok ⟨r.1, r.2.1, r.2.2, false⟩
      else if event_type = some "authenticate" then
        Except.ok ⟨st, [], [], false⟩
      else if user = UserScope.anonymous then
        Except.ok ⟨st, [Message.error "Authentication required"], [], true⟩
      else if event_type = some "check_in" then
        let r := handle_check_in st now todayStart (data.payload.getD emptyPayload)
        Except.ok ⟨r.store, r.sent, r.broadcast, false⟩
      else if event_type = some "check_out" then
        let r := handle_check_out st now todayStart (data.payload.getD emptyPayload)
        Except.ok ⟨r.store, r.sent, r.broadcast, false⟩
      else
        Except.ok ⟨st, [], [], false⟩

/-- Outcome of `CheckInConsumer.connect` for one handshake. -/
structure ConnectResult where
  accepted : Bool
  closeCode : Option Nat
  joinedGroup : Bool
  sent : List Message
deriving DecidableEq, Repr

/-- `CheckInConsumer.connect`: an anonymous user is closed with code 4001
before any group join; an authenticated user is accepted and joined, then the
initial stats are fetched and sent — a failure there (`statsResult` is the
outcome of `get_check_in_stats` against the live database, which can raise)
is only logged: the connection stays open and nothing is sent. -/
def connect (user : UserScope) (statsResult : Except Unit Stats) : ConnectResult :=
  match user with
  | UserScope.anonymous => ⟨false, some 4001, false, []⟩
  | UserScope.authenticated _ _ =>
      match statsResult with
      | Except.ok s => ⟨true, none, true, [Message.initial_stats s]⟩
      | Except.error _ => ⟨true, none, true, []⟩

/-- Python `str.split(sep)` for a one-character separator, on character
lists: `"".split(c)` is `[""]`, separators at the ends produce empty pieces. -/
def splitOnChar (c : Char) : List Char → List (List Char)
  | [] => [[]]
  | x :: xs =>
      let r := splitOnChar c xs
      if x = c then [] :: r
      else
        match r with
        | [] => [[x]]
        | y :: ys => (x :: y) :: ys

/-- `query_string.split('&')` followed by the `if q` filter: the non-empty
`&`-separated segments of the query string. -/
def querySegments (qs : String) : List String :=
  ((splitOnChar '&' qs.toList).map (fun l => String.mk l)).filter (fun q => q ≠ "")

/-- `q.split('=')` for one query segment. -/
def segmentParts (q : String) : List String :=
  (splitOnChar '=' q.toList).map (fun l => String.mk l)

/-- `dict(q.split('=') for q in query_string.split('&') if q)`: builds the
key-value pairs when every kept segment splits into exactly two parts, and
raises `ValueError` (`Except.error ()`) as soon as some segment does not. -/
def parseQueryParams (qs : String) : Except Unit (List (String × String)) :=
  if (querySegments qs).all (fun q => (segmentParts q).length == 2) then
    Except.ok ((querySegments qs).map
      (fun q => ((segmentParts q).getD 0 "", (segmentParts q).getD 1 "")))
  else Except.error ()

/-- Python dict lookup over the built pairs; a duplicated key keeps its last
occurrence. -/
def dictGet (pairs : List (String × String)) (k : String) : Option String :=
  (pairs.reverse.find? (fun p => p.1 == k)).map (fun p => p.2)

/-- Outcome of the middleware: either an exception escaped `__call__` before
the consumer ran, or the scope's user was set and the consumer proceeds. -/
inductive AuthOutcome where
  | raised
  | proceed (user : UserScope)
deriving DecidableEq, Repr

/-- `JWTAuthMiddleware.__call__` over the handshake query string.
`decodeToken` abstracts `AccessToken(token)['user_id']` (`none` when decoding
or the claim lookup raises); `getUser` abstracts
`User.objects.get(id=user_id)` as `(id, username)` with `DoesNotExist` as
`none`.  The query-parameter `dict(...)` comprehension is evaluated first and
its `ValueError` is not caught; a falsy (absent or empty) token, a failed
decode, and a missing user all leave the scope anonymous. -/
def JWTAuthMiddleware (decodeToken : String → Option String)
    (getUser : String → Option (String × String)) (qs : String) : AuthOutcome :=
  match parseQueryParams qs with
  | Except.error _ => AuthOutcome.raised
  | Except.ok pairs =>
      match dictGet pairs "token" with
      | none => AuthOutcome.proceed UserScope.anonymous
      | some token =>
          if token = "" then AuthOutcome.proceed UserScope.anonymous
          else
            match decodeToken token with
            | none => AuthOutcome.proceed UserScope.anonymous
            | some uid =>
                match getUser uid with
                | none => AuthOutcome.proceed UserScope.anonymous
                | some u => AuthOutcome.proceed (UserScope.authenticated u.1 u.2)

/-- The full handshake pipeline: `JWTAuthMiddleware` wrapping
`CheckInConsumer.connect` (an exception in the middleware means the consumer
never runs). -/
def handshake (decodeToken : String → Option String)
    (getUser : String → Option (String × String)) (qs : String)
    (statsResult : Except Unit Stats) : Except Unit ConnectResult :=
  match JWTAuthMiddleware decodeToken getUser qs with
  | AuthOutcome.raised => Except.error ()
  | AuthOutcome.proceed u => Except.ok (connect u statsResult)

/-- Number of open records a member holds in the store. -/
def openRecordCount (st : Store) (mid : String) : Nat :=
  (st.checkins.filter (fun r => r.memberId == mid && r.check_out_time.isNone)).length

/-- The claim's reading of the stats population, stated from the spec's words
for comparison with `completedToday`: records whose check-in timestamp falls
on today's calendar date (the 86400-second window starting at `todayStart`)
and whose check-out timestamp is non-null. -/
def specCompletedToday (st : Store) (todayStart : Nat) : List CheckIn :=
  st.checkins.filter (fun r => decide (todayStart ≤ r.check_in_time) &&
    decide (r.check_in_time < todayStart + 86400) && r.check_out_time.isSome)

/-- Example fixture: a member with an open record, and a second member. -/
def exMember : Member := ⟨"m1", "Alice"⟩

/-- Example fixture: a member with no record. -/
def exMember2 : Member := ⟨"m2", "Bob"⟩

/-- Example fixture: an open record of `exMember` carrying notes. -/
def exOpenRecord : CheckIn := ⟨0, "m1", 100, none, some "Gym", some "old"⟩

/-- Example fixture: the store holding `exMember`, `exMember2` and the open
record `exOpenRecord`. -/
def exStore : Store := ⟨[exMember, exMember2], [exOpenRecord], 1⟩

/-- C1, counterexample.  In `exStore` member `m1` already holds exactly one
open record, yet a second `check_in` for `m1` replies `check_in_success` (not
`check_in_error`), creates a second record, broadcasts three group messages,
and leaves the member with two simultaneously open records — the handler
performs no open-record check, so the claimed at-most-one-open-record
invariant is not enforced. -/
theorem c1_counterexample :
    openRecordCount exStore "m1" = 1 ∧
    (handle_check_in exStore 200 0 ⟨some "m1", none, none, some "Gym", none⟩).sent =
      [Message.check_in_success ⟨1, "m1", "Alice", "", 200, some "Gym"⟩] ∧
    (handle_check_in exStore 200 0 ⟨some "m1", none, none, some "Gym", none⟩).store.checkins.length = 2 ∧
    (handle_check_in exStore 200 0 ⟨some "m1", none, none, some "Gym", none⟩).broadcast.length = 3 ∧
    openRecordCount (handle_check_in exStore 200 0 ⟨some "m1", none, none, some "Gym", none⟩).store "m1" = 2 := by
  decide

/-- C1, amended.  `process_check_in` performs no open-record check: whenever
the member id resolves to an existing member — in particular when that member
already has an open record — `check_in` succeeds, appends a fresh open record
to the store, replies `check_in_success`, and broadcasts, incrementing the
member's open-record count by one; only a nonexistent member yields
`check_in_error`.  The at-most-one-open-record invariant is therefore not
enforced by this handler. -/
theorem c1_amended (st : Store) (now todayStart : Nat) (p : PayloadData) (m : Member)
    (h : findMember st (pyOrStr p.memberId p.member_id) = some m) :
    (handle_check_in st now todayStart p).store.checkins =
      st.checkins ++ [⟨st.nextId, m.id, now, none, p.location, p.notes⟩] ∧
    (handle_check_in st now todayStart p).sent =
      [Message.check_in_success ⟨st.nextId, m.id, m.full_name, "", now, p.location⟩] ∧
    openRecordCount (handle_check_in st now todayStart p).store m.id =
      openRecordCount st m.id + 1 ∧
    (handle_check_in st now todayStart p).broadcast ≠ [] := by
  simp only [handle_check_in, process_check_in, h]
  refine ⟨trivial, trivial, ?_, by simp⟩
  simp [openRecordCount, List.filter_append]

/-- C1, witness for the amended theorem at the fixture store. -/
theorem c1_amended_witness :
    findMember exStore (pyOrStr (some "m1") none) = some exMember ∧
    openRecordCount (handle_check_in exStore 200 0
        ⟨some "m1", none, none, some "Gym", none⟩).store exMember.id =
      openRecordCount exStore exMember.id + 1 :=
  ⟨by decide,
    (c1_amended exStore 200 0 ⟨some "m1", none, none, some "Gym", none⟩ exMember
      (by decide)).2.2.1⟩

/-- C2.  A frame that is not valid JSON (`parsed = none`) makes `receive`
raise `json.JSONDecodeError` (the debug print on line 85 of `consumers.py`
calls `json.loads(text_data)` before the `try` block), so no
`Invalid JSON format` error message is ever sent and the exception escapes the
handler — the code contradicts its own `except json.JSONDecodeError` branch,
which was written to send exactly that message. -/
theorem c2_invalid_json_raises (user : UserScope) (st : Store) (now todayStart : Nat) :
    receive user st now todayStart none = Except.error () := by
  rfl

/-- C3, counterexample.  When fetching the initial stats fails after a
successful connect, the consumer stays open and joined but sends nothing at
all — in particular no `error` message, contrary to the claim. -/
theorem c3_counterexample :
    connect (UserScope.authenticated "u1" "alice") (Except.error ()) =
      ⟨true, none, true, []⟩ := by
  rfl

/-- C3, amended.  A failure while computing or sending the initial
`StatsSnapshot` is caught and only logged: the connection is accepted, stays
open (no close code) and remains in the broadcast group, but no message —
error or otherwise — is sent to the connection. -/
theorem c3_stats_failure_swallowed (uid uname : String) :
    connect (UserScope.authenticated uid uname) (Except.error ()) =
      ⟨true, none, true, []⟩ := by
  rfl

/-- After a record is closed by `process_check_out`, the updated table no
longer holds any open record with that id, so a later check-out of the same id
cannot match. -/
theorem no_open_after_close (st : Store) (now : Nat) (cid : Nat) (r : CheckIn)
    (notes : Option String)
    (hfind : st.checkins.find? (fun x => x.id == cid && x.check_out_time.isNone) = some r) :
    (st.checkins.map (fun x => if x.id == r.id then closeRecord r now notes else x)).find?
      (fun x => x.id == cid && x.check_out_time.isNone) = none := by
  have hr := List.find?_some hfind
  rw [Bool.and_eq_true] at hr
  have hrid : r.id = cid := eq_of_beq hr.1
  rw [List.find?_eq_none]
  intro a ha
  obtain ⟨y, hy, hfy⟩ := List.mem_map.mp ha
  by_cases h : (y.id == r.id) = true
  · rw [if_pos h] at hfy
    subst hfy
    simp [closeRecord]
  · rw [if_neg h] at hfy
    subst hfy
    rw [Bool.and_eq_true]
    rintro ⟨h1, -⟩
    have hy2 : y.id = cid := eq_of_beq h1
    exact h (by simp [hy2, hrid])

/-- C4, counterexample.  The open record of `exStore` carries notes `"old"`;
checking it out with notes `"new"` leaves the record's notes equal to
`"new"`: the supplied notes overwrite the existing ones instead of being
appended to them (the result is not `"old" ++ "new"`, and the old text is
gone). -/
theorem c4_counterexample :
    exOpenRecord.notes = some "old" ∧
    (process_check_out exStore 300 (some 0) (some "new")).1.checkins.map CheckIn.notes =
      [some "new"] ∧
    "new" ≠ "old" ++ "new" := by
  decide

/-- C4, amended.  For every `check_out` on an existing open record the handler
sets the record's check-out timestamp to the current time, REPLACES the
record's notes with the supplied notes when they are non-empty (rather than
appending them), leaves every other field unchanged, and persists; no record
is deleted (the table keeps its length), and the record is mutated at most
once — a second `check_out` of the same id fails and leaves the store
unchanged. -/
theorem c4_check_out_replaces_notes (st : Store) (now now2 cid : Nat) (r : CheckIn)
    (s : String) (notes2 : Option String)
    (hfind : st.checkins.find? (fun x => x.id == cid && x.check_out_time.isNone) = some r)
    (hs : s ≠ "") :
    process_check_out st now (some cid) (some s) =
      (⟨st.members,
        st.checkins.map (fun x => if x.id == r.id then closeRecord r now (some s) else x),
        st.nextId⟩,
       Except.ok ⟨r.id, r.memberId, memberName st r.memberId, "",
         r.check_in_time, now, r.location⟩) ∧
    closeRecord r now (some s) =
      ⟨r.id, r.memberId, r.check_in_time, some now, r.location, some s⟩ ∧
    (process_check_out st now (some cid) (some s)).1.checkins.length =
      st.checkins.length ∧
    process_check_out (process_check_out st now (some cid) (some s)).1 now2
        (some cid) notes2 =
      ((process_check_out st now (some cid) (some s)).1,
        Except.error "Check-in not found or already checked out") := by
  have hb : (some cid).bind
      (fun c => st.checkins.find? (fun x => x.id == c && x.check_out_time.isNone)) = some r :=
    hfind
  have hstep : process_check_out st now (some cid) (some s) =
      (⟨st.members,
        st.checkins.map (fun x => if x.id == r.id then closeRecord r now (some s) else x),
        st.nextId⟩,
       Except.ok ⟨r.id, r.memberId, memberName st r.memberId, "",
         r.check_in_time, now, r.location⟩) := by
    simp only [process_check_out, hb]
  have hnone := no_open_after_close st now cid r (some s) hfind
  refine ⟨hstep, ?_, ?_, ?_⟩
  · simp [closeRecord, hs]
  · rw [hstep]
    simp
  · rw [hstep]
    have hb2 : (some cid).bind
        (fun c => ((st.checkins.map
            (fun x => if x.id == r.id then closeRecord r now (some s) else x)).find?
          (fun x => x.id == c && x.check_out_time.isNone))) = none := hnone
    simp only [process_check_out, hb2]

/-- C4, witness: the fixture record is found open, its close replaces the
notes, and a second check-out of the same id fails without changing the
store. -/
theorem c4_witness :
    exStore.checkins.find? (fun x => x.id == 0 && x.check_out_time.isNone) =
      some exOpenRecord ∧
    closeRecord exOpenRecord 300 (some "new") =
      ⟨0, "m1", 100, some 300, some "Gym", some "new"⟩ ∧
    process_check_out (process_check_out exStore 300 (some 0) (some "new")).1 400
        (some 0) none =
      ((process_check_out exStore 300 (some 0) (some "new")).1,
        Except.error "Check-in not found or already checked out") :=
  ⟨by decide,
    (c4_check_out_replaces_notes exStore 300 400 0 exOpenRecord "new" none (by decide)
      (by decide)).2.1,
    (c4_check_out_replaces_notes exStore 300 400 0 exOpenRecord "new" none (by decide)
      (by decide)).2.2.2⟩

/-- C7.  A `check_out` whose id matches no open record — the id does not
exist, is null, or refers to an already-closed record — replies
`check_out_error` with "Check-in not found or already checked out" to the
sender only, with no broadcast and no store change; and `check_out` never
succeeds twice for the same record id: after one success, any later
`check_out` of that id fails and leaves the store unchanged. -/
theorem c7_check_out_error_only_and_idempotent (st : Store) (now now2 todayStart : Nat)
    (data : PayloadData) (cid : Nat) (notes notes2 : Option String) :
    ((data.checkInId.bind
        (fun c => st.checkins.find? (fun x => x.id == c && x.check_out_time.isNone)) = none) →
      handle_check_out st now todayStart data =
        ⟨st, [Message.check_out_error "Check-in not found or already checked out"], []⟩) ∧
    (∀ st' info, process_check_out st now (some cid) notes = (st', Except.ok info) →
      process_check_out st' now2 (some cid) notes2 =
        (st', Except.error "Check-in not found or already checked out")) := by
  constructor
  · intro h
    simp only [handle_check_out, process_check_out, h]
  · intro st' info h
    cases hfind : st.checkins.find? (fun x => x.id == cid && x.check_out_time.isNone) with
    | none =>
        have hb : (some cid).bind
            (fun c => st.checkins.find? (fun x => x.id == c && x.check_out_time.isNone)) =
              none := hfind
        rw [show process_check_out st now (some cid) notes =
            (st, Except.error "Check-in not found or already checked out") from by
          simp only [process_check_out, hb]] at h
        injection h with h1 h2
        simp at h2
    | some r =>
        have hb : (some cid).bind
            (fun c => st.checkins.find? (fun x => x.id == c && x.check_out_time.isNone)) =
              some r := hfind
        rw [show process_check_out st now (some cid) notes =
            (⟨st.members,
              st.checkins.map (fun x => if x.id == r.id then closeRecord r now notes else x),
              st.nextId⟩,
             Except.ok ⟨r.id, r.memberId, memberName st r.memberId, "",
               r.check_in_time, now, r.location⟩) from by
          simp only [process_check_out, hb]] at h
        injection h with h1 h2
        subst h1
        have hnone := no_open_after_close st now cid r notes hfind
        have hb2 : (some cid).bind
            (fun c => ((st.checkins.map
                (fun x => if x.id == r.id then closeRecord r now notes else x)).find?
              (fun x => x.id == c && x.check_out_time.isNone))) = none := hnone
        simp only [process_check_out, hb2]

/-- C7, witness: a check-out for the unused id 5 errors without touching the
fixture store, and the open fixture record, once checked out, cannot be
checked out again. -/
theorem c7_witness :
    handle_check_out exStore 300 0 ⟨none, none, some 5, none, none⟩ =
      ⟨exStore, [Message.check_out_error "Check-in not found or already checked out"], []⟩ ∧
    process_check_out (process_check_out exStore 300 (some 0) (some "new")).1 400
        (some 0) none =
      ((process_check_out exStore 300 (some 0) (some "new")).1,
        Except.error "Check-in not found or already checked out") :=
  ⟨(c7_check_out_error_only_and_idempotent exStore 300 400 0
      ⟨none, none, some 5, none, none⟩ 0 none none).1 (by decide),
    (c7_check_out_error_only_and_idempotent exStore 300 400 0
      ⟨none, none, some 5, none, none⟩ 0 (some "new") none).2
      (process_check_out exStore 300 (some 0) (some "new")).1
      ⟨0, "m1", "Alice", "", 100, 300, some "Gym"⟩ (by rfl)⟩

/-- C5.  A `batch` whose `check_in` entry lists two payloads dispatches them
through the ordinary `check_in` handling sequentially in list order, and the
first item's failure does not abort the second: when the first member id
resolves to no member and the second resolves to `m2`, the replies are
`check_in_error` followed by `check_in_success`, exactly one new record — for
`m2` — is created, and the second item's broadcasts all go out. -/
theorem c5_batch_order_and_isolation (st : Store) (now todayStart : Nat)
    (p1 p2 : PayloadData) (m2 : Member)
    (h1 : findMember st (pyOrStr p1.memberId p1.member_id) = none)
    (h2 : findMember st (pyOrStr p2.memberId p2.member_id) = some m2) :
    handle_batch_messages st now todayStart [("check_in", [p1, p2])] =
      (⟨st.members, st.checkins ++ [⟨st.nextId, m2.id, now, none, p2.location, p2.notes⟩],
        st.nextId + 1⟩,
       [Message.check_in_error "Member not found",
        Message.check_in_success ⟨st.nextId, m2.id, m2.full_name, "", now, p2.location⟩],
       [Message.member_checked_in ⟨st.nextId, m2.id, m2.full_name, "", now, p2.location⟩,
        Message.stats_update (get_check_in_stats
          ⟨st.members, st.checkins ++ [⟨st.nextId, m2.id, now, none, p2.location, p2.notes⟩],
            st.nextId + 1⟩ todayStart),
        Message.activity_notification
          ⟨"check_in", m2.id, m2.full_name, "", now, p2.location, none⟩]) := by
  simp [handle_batch_messages, foldHandler, handle_check_in, process_check_in, h1, h2]

/-- C5, witness: in the fixture store a batch check-in for an unknown member
followed by `m2` fails on the first item and still checks `m2` in. -/
theorem c5_witness :
    findMember exStore (pyOrStr (some "nope") none) = none ∧
    handle_batch_messages exStore 200 0
        [("check_in", [⟨some "nope", none, none, none, none⟩,
                        ⟨some "m2", none, none, none, none⟩])] =
      (⟨exStore.members, exStore.checkins ++ [⟨1, "m2", 200, none, none, none⟩], 2⟩,
       [Message.check_in_error "Member not found",
        Message.check_in_success ⟨1, "m2", "Bob", "", 200, none⟩],
       [Message.member_checked_in ⟨1, "m2", "Bob", "", 200, none⟩,
        Message.stats_update (get_check_in_stats
          ⟨exStore.members, exStore.checkins ++ [⟨1, "m2", 200, none, none, none⟩], 2⟩ 0),
        Message.activity_notification ⟨"check_in", "m2", "Bob", "", 200, none, none⟩]) :=
  ⟨by decide,
    c5_batch_order_and_isolation exStore 200 0
      ⟨some "nope", none, none, none, none⟩ ⟨some "m2", none, none, none, none⟩
      exMember2 (by decide) (by decide)⟩

/-- C9.  Every successful `check_in` broadcasts, besides `member_checked_in`
and `stats_update`, an `activity_notification` carrying the activity kind
`check_in`, the member, the check-in timestamp and the location; every
successful `check_out` broadcasts one carrying the kind `check_out`, the
member, the check-out timestamp, the location, and the stay duration in
truncated whole minutes — a third broadcast message per mutation. -/
theorem c9_activity_broadcast (st : Store) (now todayStart : Nat) :
    (∀ p st' info,
        process_check_in st now (pyOrStr p.memberId p.member_id) p.location p.notes =
          (st', Except.ok info) →
        (handle_check_in st now todayStart p).broadcast =
          [Message.member_checked_in info,
           Message.stats_update (get_check_in_stats st' todayStart),
           Message.activity_notification ⟨"check_in", info.memberId, info.memberFullName,
             info.memberMembershipType, info.check_in_time, info.location, none⟩]) ∧
    (∀ p st' info,
        process_check_out st now p.checkInId p.notes = (st', Except.ok info) →
        (handle_check_out st now todayStart p).broadcast =
          [Message.member_checked_out info,
           Message.stats_update (get_check_in_stats st' todayStart),
           Message.activity_notification ⟨"check_out", info.memberId, info.memberFullName,
             info.memberMembershipType, info.check_out_time, info.location,
             some (((info.check_out_time : ℤ) - (info.check_in_time : ℤ)).tdiv 60)⟩]) := by
  constructor
  · intro p st' info h
    simp only [handle_check_in, h]
  · intro p st' info h
    simp only [handle_check_out, h]

/-- C9, witness: checking member `m2` in at the fixture store broadcasts the
`activity_notification`, and checking the fixture record out broadcasts one
with a duration of 3 minutes (200 seconds elapsed, truncated). -/
theorem c9_witness :
    (handle_check_in exStore 200 0 ⟨some "m2", none, none, none, none⟩).broadcast =
      [Message.member_checked_in ⟨1, "m2", "Bob", "", 200, none⟩,
       Message.stats_update (get_check_in_stats
         ⟨exStore.members, exStore.checkins ++ [⟨1, "m2", 200, none, none, none⟩], 2⟩ 0),
       Message.activity_notification ⟨"check_in", "m2", "Bob", "", 200, none, none⟩] ∧
    (handle_check_out exStore 300 0 ⟨none, none, some 0, none, none⟩).broadcast =
      [Message.member_checked_out ⟨0, "m1", "Alice", "", 100, 300, some "Gym"⟩,
       Message.stats_update (get_check_in_stats
         ⟨exStore.members, [⟨0, "m1", 100, some 300, some "Gym", some "old"⟩], 1⟩ 0),
       Message.activity_notification
         ⟨"check_out", "m1", "Alice", "", 300, some "Gym", some 3⟩] :=
  ⟨(c9_activity_broadcast exStore 200 0).1 ⟨some "m2", none, none, none, none⟩
      ⟨exStore.members, exStore.checkins ++ [⟨1, "m2", 200, none, none, none⟩], 2⟩
      ⟨1, "m2", "Bob", "", 200, none⟩ (by rfl),
    (c9_activity_broadcast exStore 300 0).2 ⟨none, none, some 0, none, none⟩
      ⟨exStore.members, [⟨0, "m1", 100, some 300, some "Gym", some "old"⟩], 1⟩
      ⟨0, "m1", "Alice", "", 100, 300, some "Gym"⟩ (by rfl)⟩

/-- C6.  Whenever the handshake query string parses but carries no usable
credential — no `token` parameter, an empty one, a token the decoder rejects,
or a token whose user id resolves to no existing user — the connection is
closed with the distinguished unauthorized close code 4001, is never accepted
into the broadcast group, and receives no message at all (in particular no
`initial_stats`). -/
theorem c6_unauthorized_rejected (decodeToken : String → Option String)
    (getUser : String → Option (String × String)) (qs : String)
    (statsResult : Except Unit Stats) (pairs : List (String × String))
    (hp : parseQueryParams qs = Except.ok pairs)
    (htok : dictGet pairs "token" = none ∨
      ∃ t, dictGet pairs "token" = some t ∧
        (t = "" ∨ decodeToken t = none ∨
          ∃ uid, decodeToken t = some uid ∧ getUser uid = none)) :
    handshake decodeToken getUser qs statsResult =
      Except.ok ⟨false, some 4001, false, []⟩ := by
  have hmw : JWTAuthMiddleware decodeToken getUser qs =
      AuthOutcome.proceed UserScope.anonymous := by
    rcases htok with h | ⟨t, ht, h⟩
    · simp only [JWTAuthMiddleware, hp, h]
    · rcases h with h | h | ⟨uid, hu, hg⟩
      · subst h
        simp [JWTAuthMiddleware, hp, ht]
      · by_cases he : t = ""
        · simp [JWTAuthMiddleware, hp, ht, he]
        · simp [JWTAuthMiddleware, hp, ht, he, h]
      · by_cases he : t = ""
        · simp [JWTAuthMiddleware, hp, ht, he]
        · simp [JWTAuthMiddleware, hp, ht, he, hu, hg]
  simp only [handshake, hmw, connect]

/-- C6, witness: a token the decoder rejects is closed with 4001, joins
nothing, and receives nothing. -/
theorem c6_witness :
    parseQueryParams "token=abc" = Except.ok [("token", "abc")] ∧
    handshake (fun _ => none) (fun _ => none) "token=abc"
        (Except.ok ⟨0, 0, 0⟩) =
      Except.ok ⟨false, some 4001, false, []⟩ :=
  ⟨by rfl,
    c6_unauthorized_rejected (fun _ => none) (fun _ => none) "token=abc"
      (Except.ok ⟨0, 0, 0⟩) [("token", "abc")] (by rfl)
      (Or.inr ⟨"abc", by rfl, Or.inr (Or.inl rfl)⟩)⟩

/-- The splitter never produces an empty list of pieces. -/
theorem splitOnChar_ne_nil (c : Char) (l : List Char) : splitOnChar c l ≠ [] := by
  induction l with
  | nil => simp [splitOnChar]
  | cons x xs ih =>
      simp only [splitOnChar]
      by_cases h : x = c
      · simp [h]
      · rw [if_neg h]
        cases hr : splitOnChar c xs with
        | nil => simp
        | cons y ys => simp

/-- Splitting on a character yields one more piece than there are occurrences
of that character. -/
theorem splitOnChar_length (c : Char) (l : List Char) :
    (splitOnChar c l).length = l.count c + 1 := by
  induction l with
  | nil => simp [splitOnChar]
  | cons x xs ih =>
      simp only [splitOnChar]
      by_cases h : x = c
      · rw [if_pos h]
        simp only [List.length_cons, ih, List.count_cons]
        simp [h]
      · rw [if_neg h]
        cases hr : splitOnChar c xs with
        | nil => exact absurd hr (splitOnChar_ne_nil c xs)
        | cons y ys =>
            rw [hr] at ih
            simp only [List.length_cons] at ih ⊢
            have hb : (x == c) = false := beq_eq_false_iff_ne.mpr h
            simp only [List.count_cons, hb]
            simp
            omega

/-- C10.  The middleware's query-parameter parsing is not total: any query
string containing a non-empty segment that does not have exactly one `=`
(such as `foo`, with none, or `a=b=c`, with two) makes the `dict(...)`
comprehension raise an uncaught `ValueError` out of the middleware instead of
treating the token as absent. -/
theorem c10_query_parsing_not_total (decodeToken : String → Option String)
    (getUser : String → Option (String × String)) (qs q : String)
    (hq : q ∈ querySegments qs) (hbad : q.toList.count '=' ≠ 1) :
    JWTAuthMiddleware decodeToken getUser qs = AuthOutcome.raised := by
  have hc : (segmentParts q).length = q.toList.count '=' + 1 := by
    simp [segmentParts, splitOnChar_length]
  have hlen : ((segmentParts q).length == 2) = false := by
    rw [beq_eq_false_iff_ne]
    omega
  have hall : ((querySegments qs).all (fun s => (segmentParts s).length == 2)) = false := by
    rw [List.all_eq_false]
    exact ⟨q, hq, by simp [hlen]⟩
  have hparse : parseQueryParams qs = Except.error () := by
    unfold parseQueryParams
    rw [hall]
    simp
  simp only [JWTAuthMiddleware, hparse]

/-- C10, witness: the query strings `foo` (no `=`) and `a=b=c` (two `=`) both
raise out of the middleware. -/
theorem c10_witness :
    "foo" ∈ querySegments "foo" ∧ "foo".toList.count '=' ≠ 1 ∧
    JWTAuthMiddleware (fun _ => none) (fun _ => none) "foo" = AuthOutcome.raised ∧
    "a=b=c" ∈ querySegments "a=b=c" ∧ "a=b=c".toList.count '=' ≠ 1 ∧
    JWTAuthMiddleware (fun _ => none) (fun _ => none) "a=b=c" = AuthOutcome.raised :=
  ⟨by decide, by decide,
    c10_query_parsing_not_total (fun _ => none) (fun _ => none) "foo" "foo"
      (by decide) (by decide),
    by decide, by decide,
    c10_query_parsing_not_total (fun _ => none) (fun _ => none) "a=b=c" "a=b=c"
      (by decide) (by decide)⟩

/-- Round-half-to-even lands within half a unit of its argument, i.e. it is a
round-to-nearest function. -/
theorem abs_roundHalfEven_sub_le (q : ℚ) : |(roundHalfEven q : ℚ) - q| ≤ 1/2 := by
  have h1 : (⌊q⌋ : ℚ) ≤ q := Int.floor_le q
  have h2 : q < ⌊q⌋ + 1 := Int.lt_floor_add_one q
  unfold roundHalfEven
  split_ifs with hlt hgt hev
  · rw [abs_le]
    constructor <;> linarith
  · rw [abs_le]
    push_cast
    constructor <;> linarith
  · rw [abs_le]
    constructor <;> linarith
  · rw [abs_le]
    push_cast
    constructor <;> linarith

/-- When every record was checked in no later than `now` and `now` still lies
in the day that starts at `todayStart`, the aggregator's population (check-in
at or after `todayStart`, completed) is exactly the claim's population
(check-in on today's date, completed). -/
theorem completedToday_eq_spec (st : Store) (todayStart now : Nat)
    (hle : ∀ r ∈ st.checkins, r.check_in_time ≤ now)
    (hnow : now < todayStart + 86400) :
    completedToday st todayStart = specCompletedToday st todayStart := by
  unfold completedToday specCompletedToday
  apply List.filter_congr
  intro r hr
  have h := hle r hr
  have hd : decide (r.check_in_time < todayStart + 86400) = true :=
    decide_eq_true (by omega)
  rw [hd]
  simp

/-- The average-stay component of the snapshot, written out. -/
theorem averageStayMinutes_def (st : Store) (ts : Nat) :
    (get_check_in_stats st ts).averageStayMinutes =
      if 0 < (completedToday st ts).length then
        roundHalfEven (((completedToday st ts).map stayMinutes).sum /
          ((completedToday st ts).length : ℚ))
      else 0 := rfl

/-- C8.  Under the store invariant that check-in timestamps never lie in the
future (`check_in_time ≤ now`, which creation guarantees) and with `now`
inside today's 86400-second window, `averageStayMinutes` is exactly `0` when
no record checked in today has been completed — no division by zero — and
otherwise lies within half a minute of the exact mean stay in minutes over
today's completed records, i.e. it is that mean rounded to the nearest whole
minute (ties going to the even neighbour, Python's `round`). -/
theorem c8_average_stay (st : Store) (todayStart now : Nat)
    (hle : ∀ r ∈ st.checkins, r.check_in_time ≤ now)
    (hnow : now < todayStart + 86400) :
    (specCompletedToday st todayStart = [] →
      (get_check_in_stats st todayStart).averageStayMinutes = 0) ∧
    (specCompletedToday st todayStart ≠ [] →
      |((get_check_in_stats st todayStart).averageStayMinutes : ℚ) -
        ((specCompletedToday st todayStart).map stayMinutes).sum /
          ((specCompletedToday st todayStart).length : ℚ)| ≤ 1/2) := by
  have heq := completedToday_eq_spec st todayStart now hle hnow
  constructor
  · intro hempty
    rw [averageStayMinutes_def, heq, hempty]
    simp
  · intro hne
    rw [averageStayMinutes_def, heq]
    have hpos : 0 < (specCompletedToday st todayStart).length :=
      List.length_pos.mpr hne
    rw [if_pos hpos]
    exact abs_roundHalfEven_sub_le _

/-- Example fixture for the stats claim: two records completed today with
stays of 90 and 30 seconds (mean one minute). -/
def exStatsStore : Store :=
  ⟨[], [⟨0, "m1", 10, some 100, none, none⟩, ⟨1, "m1", 20, some 50, none, none⟩], 2⟩

/-- C8, witness: the empty store averages exactly 0, and the two-record
fixture's average is within half a minute of the exact mean. -/
theorem c8_witness :
    (get_check_in_stats ⟨[], [], 0⟩ 0).averageStayMinutes = 0 ∧
    specCompletedToday exStatsStore 0 ≠ [] ∧
    |((get_check_in_stats exStatsStore 0).averageStayMinutes : ℚ) -
      ((specCompletedToday exStatsStore 0).map stayMinutes).sum /
        ((specCompletedToday exStatsStore 0).length : ℚ)| ≤ 1/2 :=
  ⟨(c8_average_stay ⟨[], [], 0⟩ 0 0 (by simp) (by omega)).1 (by decide),
    by decide,
    (c8_average_stay exStatsStore 0 200 (by decide) (by omega)).2 (by decide)⟩

end AVGym
